import Mathlib

/-!
Shallow embedding of the Z-Wave dimmer / color light adapter found in
homeassistant/components/light/zwave.py: the color channel codec
(update_properties and the payload generation in turn_on) and the
debounced refresh state machine (_value_changed), together with proofs
about the specification claims.

Python floats are modelled with exact rationals and the Python int(...)
conversion is truncation toward zero. The host color utilities
(color_temperature_mired_to_kelvin, color_temperature_to_rgb) and the
host bounds HASS_COLOR_MIN / HASS_COLOR_MAX are imported by the adapter
from modules outside the sources under verification, so they are kept
as parameters of the embedding: the claims under study do not depend on
their concrete values.
-/

namespace ZwaveLight

/-- Bit of the warm white channel in the vendor capability bitmask. -/
def COLOR_CHANNEL_WARM_WHITE : ℕ := 1

/-- Bit of the cold white channel in the vendor capability bitmask. -/
def COLOR_CHANNEL_COLD_WHITE : ℕ := 2

/-- Bit of the red channel in the vendor capability bitmask. -/
def COLOR_CHANNEL_RED : ℕ := 4

/-- Bit of the green channel in the vendor capability bitmask. -/
def COLOR_CHANNEL_GREEN : ℕ := 8

/-- Bit of the blue channel in the vendor capability bitmask. -/
def COLOR_CHANNEL_BLUE : ℕ := 16

/-- Midpoint color temperature, from the source: (MAX - MIN) / 2 + MIN.
The bounds cmin and cmax stand for HASS_COLOR_MIN and HASS_COLOR_MAX. -/
def TEMP_MID_HASS (cmin cmax : ℚ) : ℚ := (cmax - cmin) / 2 + cmin

/-- Warm color temperature, from the source: (MAX - MIN) / 3 * 2 + MIN. -/
def TEMP_WARM_HASS (cmin cmax : ℚ) : ℚ := (cmax - cmin) / 3 * 2 + cmin

/-- Cold color temperature, from the source: (MAX - MIN) / 3 + MIN. -/
def TEMP_COLD_HASS (cmin cmax : ℚ) : ℚ := (cmax - cmin) / 3 + cmin

/-- Python int(q) on a rational: truncation toward zero. -/
def pyInt (q : ℚ) : ℤ := Int.tdiv q.num (q.den : ℤ)

/-- On or off state of the light entity (STATE_ON / STATE_OFF). -/
inductive HassState where
  | on
  | off
deriving DecidableEq

/-- Mirrors brightness_state in the source: raw data above zero maps to
((data / 99) * 255, STATE_ON), zero maps to (255, STATE_OFF). -/
def brightness_state (data : ℕ) : ℚ × HassState :=
  if data > 0 then ((data : ℚ) / 99 * 255, HassState.on)
  else (255, HassState.off)

/-- Lowercase hex digit character for a value below 16, as produced by the
Python format specifier 02x. -/
def hexChar (n : ℕ) : Char :=
  if n < 10 then Char.ofNat (48 + n) else Char.ofNat (97 + n - 10)

/-- Two lowercase hex digits for a byte value, Python format(n, chr(48) ++ 2x).
Faithful for n below 256, which covers every call site. -/
def format02x (n : ℕ) : List Char := [hexChar (n / 16), hexChar (n % 16)]

/-- Decimal digits of an integer, Python format(i) alias str(i). -/
def formatDec (i : ℤ) : List Char :=
  if i < 0 then '-' :: Nat.toDigits 10 i.natAbs else Nat.toDigits 10 i.natAbs

/-- Value of one hex digit character, upper or lower case. -/
def hexVal (c : Char) : Option ℕ :=
  if '0' ≤ c ∧ c ≤ '9' then some (c.toNat - 48)
  else if 'a' ≤ c ∧ c ≤ 'f' then some (c.toNat - 87)
  else if 'A' ≤ c ∧ c ≤ 'F' then some (c.toNat - 55)
  else none

/-- Python int(s, 16) on a plain nonempty hex digit string; none when the
string is empty or holds a character that is not a hex digit. -/
def pyIntHex (s : List Char) : Option ℕ :=
  if s.isEmpty then none
  else List.foldlM (fun a c => Option.map (fun d => 16 * a + d) (hexVal c)) 0 s

/-- Payload slicing of update_properties: RGB bytes at positions 1, 3 and 5
of the color data string, then the warm white byte and the cold white byte,
each consumed only when its capability bit is set, warm first. -/
def parsePayload (channels : ℕ) (data : List Char) :
    Option (ℕ × ℕ × ℕ × ℕ × ℕ) :=
  match pyIntHex ((data.drop 1).take 2), pyIntHex ((data.drop 3).take 2),
      pyIntHex ((data.drop 5).take 2) with
  | some r, some g, some b =>
    if channels &&& COLOR_CHANNEL_WARM_WHITE ≠ 0 then
      match pyIntHex ((data.drop 7).take 2) with
      | some ww =>
        if channels &&& COLOR_CHANNEL_COLD_WHITE ≠ 0 then
          match pyIntHex ((data.drop 9).take 2) with
          | some cw => some (r, g, b, ww, cw)
          | none => none
        else some (r, g, b, ww, 0)
      | none => none
    else if channels &&& COLOR_CHANNEL_COLD_WHITE ≠ 0 then
      match pyIntHex ((data.drop 7).take 2) with
      | some cw => some (r, g, b, 0, cw)
      | none => none
    else some (r, g, b, 0, 0)
  | _, _, _ => none

/-- Well formed color data string for given channel byte values: the hash
mark, the three RGB bytes, then the warm white and cold white bytes, each
as two hex digits. -/
def mkColorData (r g b ww cw : ℕ) : List Char :=
  '#' :: (format02x r ++ format02x g ++ format02x b ++ format02x ww ++
    format02x cw)

/-- Mirrors ct_to_rgb in the source: feed the mired temperature through the
host conversion to Kelvin and then to an RGB triple of floats, truncating
each component with int. The two host conversions are parameters. -/
def ct_to_rgb (m2k : ℚ → ℚ) (k2rgb : ℚ → List ℚ) (temp : ℚ) : List ℤ :=
  (k2rgb (m2k temp)).map pyInt

/-- Decision part of ZwaveColorLight.update_properties on the already
parsed channel bytes: computes the new cached rgb and color temperature
from the capability bitmask, the parsed bytes and the previous cached
temperature (the cached temperature is left untouched when no branch
assigns it, and the cached rgb is always reassigned before the branches). -/
def decodeColor (m2k : ℚ → ℚ) (k2rgb : ℚ → List ℚ) (cmin cmax : ℚ)
    (channels : ℕ) (r g b ww cw : ℕ) (prevCt : Option ℚ) :
    Option (List ℤ) × Option ℚ :=
  let rgb0 : List ℤ := [(r : ℤ), (g : ℤ), (b : ℤ)]
  let res : Option (List ℤ) × Option ℚ :=
    if channels &&& COLOR_CHANNEL_WARM_WHITE ≠ 0 ∧
        channels &&& COLOR_CHANNEL_COLD_WHITE ≠ 0 then
      if ww > 0 then
        (some (ct_to_rgb m2k k2rgb (TEMP_WARM_HASS cmin cmax)),
          some (TEMP_WARM_HASS cmin cmax))
      else if cw > 0 then
        (some (ct_to_rgb m2k k2rgb (TEMP_COLD_HASS cmin cmax)),
          some (TEMP_COLD_HASS cmin cmax))
      else (some rgb0, some (TEMP_MID_HASS cmin cmax))
    else if channels &&& COLOR_CHANNEL_WARM_WHITE ≠ 0 then
      (some (ct_to_rgb m2k k2rgb (cmin + (cmax - cmin) * ((ww : ℚ) / 255))),
        some (cmin + (cmax - cmin) * ((ww : ℚ) / 255)))
    else if channels &&& COLOR_CHANNEL_COLD_WHITE ≠ 0 then
      (some (ct_to_rgb m2k k2rgb
          (cmin + (cmax - cmin) * ((255 - (cw : ℚ)) / 255))),
        some (cmin + (cmax - cmin) * ((255 - (cw : ℚ)) / 255)))
    else (some rgb0, prevCt)
  if channels &&& COLOR_CHANNEL_RED = 0 ∧ channels &&& COLOR_CHANNEL_GREEN = 0 ∧
      channels &&& COLOR_CHANNEL_BLUE = 0 then
    (none, res.2)
  else res

/-- Full color part of ZwaveColorLight.update_properties: parse the payload
slices, then decide the cached rgb and temperature; none on a malformed
payload, where the Python code raises before any field update. -/
def updateColorProperties (m2k : ℚ → ℚ) (k2rgb : ℚ → List ℚ) (cmin cmax : ℚ)
    (channels : ℕ) (data : List Char) (prevCt : Option ℚ) :
    Option (Option (List ℤ) × Option ℚ) :=
  match parsePayload channels data with
  | some (r, g, b, ww, cw) =>
    some (decodeColor m2k k2rgb cmin cmax channels r g b ww cw prevCt)
  | none => none

/-- Arguments of a turn_on service call: the kwargs entries the adapter
looks at (ATTR_BRIGHTNESS, ATTR_COLOR_TEMP, ATTR_RGB_COLOR). -/
structure TurnOnArgs where
  brightness : Option ℕ
  color_temp : Option ℚ
  rgb_color : Option (ℕ × ℕ × ℕ)
deriving DecidableEq

/-- Cached entity state of a color light treated by turn_on. -/
structure LightState where
  brightness : ℚ
  hstate : HassState
  rgb : Option (List ℤ)
  ct : Option ℚ
deriving DecidableEq

/-- Outcome of ZwaveDimmer.turn_on: the new cached fields and the level
written through set_dimmer, which is always invoked. -/
structure DimmerTurnOnResult where
  brightness : ℚ
  hstate : HassState
  dimmerWrite : ℤ
deriving DecidableEq

/-- Mirrors ZwaveDimmer.turn_on: the cached brightness is overwritten from
the argument when present, the level int((brightness / 255) * 99) is written
through set_dimmer, and only on a successful write the cached state becomes
STATE_ON. setDimmerOk is the boolean result of the transport write. -/
def dimmerTurnOn (setDimmerOk : Bool) (brightness0 : ℚ) (hstate0 : HassState)
    (argBrightness : Option ℕ) : DimmerTurnOnResult :=
  let b : ℚ := match argBrightness with
    | some v => (v : ℚ)
    | none => brightness0
  { brightness := b
    hstate := if setDimmerOk then HassState.on else hstate0
    dimmerWrite := pyInt (b / 255 * 99) }

/-- Outcome of ZwaveColorLight.turn_on: the new cached state, the color
payload handed to set_rgbw when one was generated, the level handed to
set_dimmer by the inherited call, and whether the warning about a missing
payload was logged. -/
structure ColorTurnOnResult where
  st : LightState
  colorWrite : Option (List Char)
  dimmerWrite : ℤ
  warned : Bool
deriving DecidableEq

/-- Mirrors ZwaveColorLight.turn_on. With a color temperature argument and
both white capability bits the payload is one of the two fixed strings,
chosen by comparing against TEMP_MID_HASS; with a single white bit the
payload appends the decimal text of the truncated scaled temperature; with
an rgb argument the payload is the lowercase hex of the three bytes plus
four zero characters. When no payload was generated only a warning is
logged; the inherited dimmer turn_on always runs at the end. The result of
set_rgbw is ignored by the source, so no success flag exists for it. -/
def colorTurnOn (cmin cmax : ℚ) (channels : ℕ) (setDimmerOk : Bool)
    (s : LightState) (args : TurnOnArgs) : ColorTurnOnResult :=
  let step : Option (List Char) × Option ℚ × Option (List ℤ) :=
    match args.color_temp with
    | some t =>
      if channels &&& COLOR_CHANNEL_WARM_WHITE ≠ 0 ∧
          channels &&& COLOR_CHANNEL_COLD_WHITE ≠ 0 then
        if t > TEMP_MID_HASS cmin cmax then
          (some ("#000000FF00").data, some (TEMP_WARM_HASS cmin cmax), s.rgb)
        else
          (some ("#00000000FF").data, some (TEMP_COLD_HASS cmin cmax), s.rgb)
      else if channels &&& COLOR_CHANNEL_WARM_WHITE ≠ 0 then
        (some (("#000000").data ++
            formatDec (pyInt ((t - cmin) / (cmax - cmin) * 255))),
          s.ct, s.rgb)
      else if channels &&& COLOR_CHANNEL_COLD_WHITE ≠ 0 then
        (some (("#000000").data ++
            formatDec (pyInt (255 - (t - cmin) / (cmax - cmin) * 255))),
          s.ct, s.rgb)
      else (none, s.ct, s.rgb)
    | none =>
      match args.rgb_color with
      | some (r, g, b) =>
        (some (('#' :: format02x r) ++ format02x g ++ format02x b ++
            ("0000").data),
          s.ct, some [(r : ℤ), (g : ℤ), (b : ℤ)])
      | none => (none, s.ct, s.rgb)
  let dim := dimmerTurnOn setDimmerOk s.brightness s.hstate args.brightness
  { st := { brightness := dim.brightness
            hstate := dim.hstate
            rgb := step.2.2
            ct := step.2.1 }
    colorWrite := step.1
    dimmerWrite := dim.dimmerWrite
    warned := step.1.isNone }

/-- State of one debounced refresher instance: the in flight flag
(_refreshing), the pending timer as its absolute fire time (_timer, none
when no live timer exists), the cached dimmer fields, and the list of
absolute times at which a refresh request was issued to the transport. -/
structure Refresher where
  refreshing : Bool
  timer : Option ℚ
  brightness : ℚ
  hstate : HassState
  refreshes : List ℚ
deriving DecidableEq

/-- Mirrors ZwaveDimmer._value_changed at time t with the raw byte of the
tracked value: a notification for another value id is ignored; while a
refresh is in flight the flag is cleared and the cached fields are read
back from the value; otherwise any live timer is cancelled and a fresh
timer two seconds ahead is started. No refresh request is issued here. -/
def value_changed (selfId : ℕ) (s : Refresher) (eventId : ℕ) (t : ℚ)
    (raw : ℕ) : Refresher :=
  if selfId ≠ eventId then s
  else if s.refreshing then
    { s with refreshing := false
             brightness := (brightness_state raw).1
             hstate := (brightness_state raw).2 }
  else
    { s with timer := some (t + 2) }

/-- Firing of the pending timer callback _refresh_value: set the in flight
flag and issue the refresh request. -/
def timer_fire (s : Refresher) : Refresher :=
  match s.timer with
  | some e =>
    { s with refreshing := true
             timer := none
             refreshes := s.refreshes ++ [e] }
  | none => s

/-- Let a pending timer fire before an event at time t when its fire time
has been reached. -/
def fire_due (s : Refresher) (t : ℚ) : Refresher :=
  match s.timer with
  | some e =>
    if e ≤ t then
      { s with refreshing := true
               timer := none
               refreshes := s.refreshes ++ [e] }
    else s
  | none => s

/-- Run a burst of matching notifications given as pairs of arrival time
and raw byte, in order, letting a due timer fire before each arrival. -/
def run_notifications (selfId : ℕ) (s : Refresher) :
    List (ℚ × ℕ) → Refresher
  | [] => s
  | (t, v) :: rest =>
    run_notifications selfId (value_changed selfId (fire_due s t) selfId t v)
      rest

/-! Helper lemmas about the hex parsing primitives. -/

/-- The hex digit characters produced by format02x parse back to their
value. -/
theorem hexVal_hexChar : ∀ d, d < 16 → hexVal (hexChar d) = some d := by
  decide

/-- Parsing of a two digit hex byte produced by format02x. -/
theorem pyIntHex_format02x (n : ℕ) (h : n < 256) :
    pyIntHex (format02x n) = some n := by
  have h1 : n / 16 < 16 := by omega
  have h2 : n % 16 < 16 := by omega
  simp [pyIntHex, format02x, List.foldlM, hexVal_hexChar _ h1,
    hexVal_hexChar _ h2]
  omega

/-- Payload slicing recovers each channel byte of a well formed color data
string when both white capability bits are set. -/
theorem parsePayload_mkColorData (channels r g b ww cw : ℕ)
    (h1 : channels &&& COLOR_CHANNEL_WARM_WHITE ≠ 0)
    (h2 : channels &&& COLOR_CHANNEL_COLD_WHITE ≠ 0)
    (hr : r < 256) (hg : g < 256) (hb : b < 256) (hw : ww < 256)
    (hc : cw < 256) :
    parsePayload channels (mkColorData r g b ww cw) =
      some (r, g, b, ww, cw) := by
  have e1 : pyIntHex (((mkColorData r g b ww cw).drop 1).take 2) = some r := by
    have e : ((mkColorData r g b ww cw).drop 1).take 2 = format02x r := rfl
    rw [e]; exact pyIntHex_format02x r hr
  have e2 : pyIntHex (((mkColorData r g b ww cw).drop 3).take 2) = some g := by
    have e : ((mkColorData r g b ww cw).drop 3).take 2 = format02x g := rfl
    rw [e]; exact pyIntHex_format02x g hg
  have e3 : pyIntHex (((mkColorData r g b ww cw).drop 5).take 2) = some b := by
    have e : ((mkColorData r g b ww cw).drop 5).take 2 = format02x b := rfl
    rw [e]; exact pyIntHex_format02x b hb
  have e4 : pyIntHex (((mkColorData r g b ww cw).drop 7).take 2) =
      some ww := by
    have e : ((mkColorData r g b ww cw).drop 7).take 2 = format02x ww := rfl
    rw [e]; exact pyIntHex_format02x ww hw
  have e5 : pyIntHex (((mkColorData r g b ww cw).drop 9).take 2) =
      some cw := by
    have e : ((mkColorData r g b ww cw).drop 9).take 2 = format02x cw := rfl
    rw [e]; exact pyIntHex_format02x cw hc
  have e1t : pyIntHex (List.take 2 (mkColorData r g b ww cw).tail) =
      some r := e1
  simp [parsePayload, e1, e1t, e2, e3, e4, e5, h1, h2]

/-- With no white capability bit the decode branches leave the cached
temperature untouched. -/
theorem decodeColor_ct_no_white (m2k : ℚ → ℚ) (k2rgb : ℚ → List ℚ)
    (cmin cmax : ℚ) (channels r g b ww cw : ℕ) (prevCt : Option ℚ)
    (h1 : channels &&& COLOR_CHANNEL_WARM_WHITE = 0)
    (h2 : channels &&& COLOR_CHANNEL_COLD_WHITE = 0) :
    (decodeColor m2k k2rgb cmin cmax channels r g b ww cw prevCt).2 =
      prevCt := by
  by_cases h3 : channels &&& COLOR_CHANNEL_RED = 0 ∧
      channels &&& COLOR_CHANNEL_GREEN = 0 ∧
      channels &&& COLOR_CHANNEL_BLUE = 0 <;>
    simp [decodeColor, h1, h2, h3]

/-- With no RGB capability bit the decoded rgb is forced to none. -/
theorem decodeColor_rgb_no_rgb (m2k : ℚ → ℚ) (k2rgb : ℚ → List ℚ)
    (cmin cmax : ℚ) (channels r g b ww cw : ℕ) (prevCt : Option ℚ)
    (h3 : channels &&& COLOR_CHANNEL_RED = 0 ∧
      channels &&& COLOR_CHANNEL_GREEN = 0 ∧
      channels &&& COLOR_CHANNEL_BLUE = 0) :
    (decodeColor m2k k2rgb cmin cmax channels r g b ww cw prevCt).1 =
      none := by
  simp [decodeColor, h3]

/-! Claim C1. -/

/-- C1 counterexample: with both white channels capable and the requested
temperature 200 not above TEMP_MID_HASS 154 500 = 327, the claim promises
the warm saturated payload, but turn_on emits the cold saturated payload
instead: the claim has the two fixed payloads swapped. -/
theorem c1_counterexample :
    (colorTurnOn 154 500 3 true ⟨255, HassState.off, none, none⟩
        ⟨none, some 200, none⟩).colorWrite = some (("#00000000FF").data) ∧
    ("#00000000FF").data ≠ ("#000000FF00").data ∧
    ¬ ((200 : ℚ) > TEMP_MID_HASS 154 500) := by
  have h : ¬ ((200 : ℚ) > TEMP_MID_HASS 154 500) := by
    norm_num [TEMP_MID_HASS]
  refine ⟨?_, by decide, h⟩
  simp [colorTurnOn, h, COLOR_CHANNEL_WARM_WHITE, COLOR_CHANNEL_COLD_WHITE]

/-- C1 amended: when the device capabilities include both WARM_WHITE and
COLD_WHITE and a color temperature is requested, turn_on emits exactly one
of two fixed payloads, never a blend: the warm saturated payload when the
target is strictly above TEMP_MID_HASS, and the cold saturated payload
otherwise. -/
theorem c1_both_whites_binary_payload (cmin cmax : ℚ) (channels : ℕ)
    (ok : Bool) (s : LightState) (args : TurnOnArgs) (t : ℚ)
    (hct : args.color_temp = some t)
    (h1 : channels &&& COLOR_CHANNEL_WARM_WHITE ≠ 0)
    (h2 : channels &&& COLOR_CHANNEL_COLD_WHITE ≠ 0) :
    (colorTurnOn cmin cmax channels ok s args).colorWrite =
      some (if t > TEMP_MID_HASS cmin cmax then ("#000000FF00").data
        else ("#00000000FF").data) := by
  by_cases ht : t > TEMP_MID_HASS cmin cmax <;>
    simp [colorTurnOn, hct, h1, h2, ht]

/-- C1 witness: a concrete device with both white channels and target 40
above the midpoint 30 of the bounds 0 and 60 receives the warm saturated
payload. -/
theorem c1_both_whites_binary_payload_witness :
    (colorTurnOn 0 60 3 true ⟨255, HassState.off, none, none⟩
        ⟨none, some 40, none⟩).colorWrite = some (("#000000FF00").data) := by
  have h := c1_both_whites_binary_payload 0 60 3 true
    ⟨255, HassState.off, none, none⟩ ⟨none, some 40, none⟩ 40 rfl
    (by decide) (by decide)
  rw [h, if_pos (by norm_num [TEMP_MID_HASS])]

/-! Claim C2. -/

/-- C2: evaluation of the code at the failing input. With only the warm
white channel capable, bounds 154 and 500 and requested temperature 500,
turn_on emits the decimal text of the truncated scaled value, giving the
ten character payload with the three characters 255, not the nine
character payload that ends in one two digit hex byte which rule of the
claim, the decoder of the same file and the hex formatting of the rgb
branch all expect. -/
theorem c2_decimal_truncated_byte_eval :
    (colorTurnOn 154 500 1 true ⟨255, HassState.off, none, none⟩
        ⟨none, some 500, none⟩).colorWrite = some (("#000000255").data) ∧
    (("#000000255").data).length = 10 ∧
    ("#000000255").data ≠ ("#000000ff").data := by
  have hq : ((500 : ℚ) - 154) / (500 - 154) * 255 = 255 := by norm_num
  refine ⟨?_, by decide, by decide⟩
  simp [colorTurnOn, hq]
  decide

/-! Claim C3. -/

/-- C3 counterexample: for explicit RGB 255, 0, 0 on a device whose
capability bitmask 28 declares no white channel at all, the claim promises
the seven character payload with no filler byte, but turn_on emits the
payload with two zero filler bytes and lowercase hex digits regardless of
the capability bits. -/
theorem c3_counterexample :
    (colorTurnOn 154 500 28 true ⟨255, HassState.off, none, none⟩
        ⟨none, none, some (255, 0, 0)⟩).colorWrite =
      some (("#ff00000000").data) ∧
    ("#ff00000000").data ≠ ("#FF0000").data ∧
    ("#ff00000000").data ≠ ("#ff0000").data := by
  refine ⟨by decide, by decide, by decide⟩

/-- C3 amended: for every explicit RGB triple and every capability set,
turn_on emits the hash mark, the three bytes as two lowercase hex digits
each, then always exactly two zero filler bytes, independent of how many
white capability bits the device declares. -/
theorem c3_rgb_payload_two_fillers (cmin cmax : ℚ) (channels : ℕ)
    (ok : Bool) (s : LightState) (args : TurnOnArgs) (r g b : ℕ)
    (hct : args.color_temp = none) (hrgb : args.rgb_color = some (r, g, b)) :
    (colorTurnOn cmin cmax channels ok s args).colorWrite =
      some (('#' :: format02x r) ++ format02x g ++ format02x b ++
        ("0000").data) := by
  simp [colorTurnOn, hct, hrgb]

/-- C3 witness: the amended payload shape at the concrete input of the
counterexample. -/
theorem c3_rgb_payload_two_fillers_witness :
    (colorTurnOn 154 500 28 true ⟨255, HassState.off, none, none⟩
        ⟨none, none, some (255, 0, 0)⟩).colorWrite =
      some (('#' :: format02x 255) ++ format02x 0 ++ format02x 0 ++
        ("0000").data) := by
  exact c3_rgb_payload_two_fillers 154 500 28 true
    ⟨255, HassState.off, none, none⟩ ⟨none, none, some (255, 0, 0)⟩
    255 0 0 rfl rfl

/-! Claim C4. -/

/-- C4 counterexample: a turn_on with requested brightness 128 whose
set_dimmer write fails still overwrites the cached brightness, previously
255, with 128: the cached local state is not left unchanged on a failed
write. -/
theorem c4_counterexample :
    (dimmerTurnOn false 255 HassState.off (some 128)).brightness =
      ((128 : ℕ) : ℚ) ∧ ((128 : ℕ) : ℚ) ≠ 255 := by
  refine ⟨rfl, by norm_num⟩

/-- C4 amended: only the cached on or off state is gated on the success of
set_dimmer; the cached brightness is overwritten from the argument before
the write regardless of success, and in ZwaveColorLight the cached rgb and
color temperature do not depend on any write result at all, the result of
set_rgbw being ignored by the source. -/
theorem c4_only_onoff_gated (ok : Bool) (b0 : ℚ) (h0 : HassState)
    (ab : Option ℕ) (v : ℕ) (cmin cmax : ℚ) (channels : ℕ)
    (s : LightState) (args : TurnOnArgs) :
    (dimmerTurnOn false b0 h0 ab).hstate = h0 ∧
    (dimmerTurnOn ok b0 h0 (some v)).brightness = (v : ℚ) ∧
    (colorTurnOn cmin cmax channels false s args).st.hstate = s.hstate ∧
    (colorTurnOn cmin cmax channels ok s args).st.rgb =
      (colorTurnOn cmin cmax channels false s args).st.rgb ∧
    (colorTurnOn cmin cmax channels ok s args).st.ct =
      (colorTurnOn cmin cmax channels false s args).st.ct := by
  exact ⟨rfl, rfl, rfl, rfl, rfl⟩

/-! Claim C5. -/

/-- C5 counterexample: a turn_on call that supplies neither a color
temperature nor an rgb value only logs the warning and generates no color
payload, yet the inherited dimmer write is still sent with the level
computed from the cached brightness: no exception interrupts the call and
the dimmer write is not suppressed. -/
theorem c5_counterexample :
    (colorTurnOn 154 500 3 true ⟨255, HassState.off, none, none⟩
        ⟨none, none, none⟩).warned = true ∧
    (colorTurnOn 154 500 3 true ⟨255, HassState.off, none, none⟩
        ⟨none, none, none⟩).colorWrite = none ∧
    (colorTurnOn 154 500 3 true ⟨255, HassState.off, none, none⟩
        ⟨none, none, none⟩).dimmerWrite = 99 := by
  refine ⟨rfl, rfl, ?_⟩
  have hq : ((255 : ℚ) / 255 * 99) = 99 := by norm_num
  show pyInt ((255 : ℚ) / 255 * 99) = 99
  rw [hq]
  rfl

/-- C5 amended: when the caller supplies neither a color temperature nor
an explicit rgb value, no color payload is generated and set_rgbw is not
called, but instead of failing with an error the adapter logs a warning
and the inherited dimmer write is still performed. -/
theorem c5_no_target_warns_dimmer_write (cmin cmax : ℚ) (channels : ℕ)
    (ok : Bool) (s : LightState) (args : TurnOnArgs)
    (h1 : args.color_temp = none) (h2 : args.rgb_color = none) :
    (colorTurnOn cmin cmax channels ok s args).colorWrite = none ∧
    (colorTurnOn cmin cmax channels ok s args).warned = true ∧
    (colorTurnOn cmin cmax channels ok s args).dimmerWrite =
      (dimmerTurnOn ok s.brightness s.hstate args.brightness).dimmerWrite := by
  refine ⟨?_, ?_, rfl⟩ <;> simp [colorTurnOn, h1, h2]

/-- C5 witness: the amended behaviour at a concrete empty call. -/
theorem c5_no_target_warns_dimmer_write_witness :
    (colorTurnOn 154 500 3 false ⟨100, HassState.on, none, none⟩
        ⟨none, none, none⟩).colorWrite = none ∧
    (colorTurnOn 154 500 3 false ⟨100, HassState.on, none, none⟩
        ⟨none, none, none⟩).warned = true := by
  have h := c5_no_target_warns_dimmer_write 154 500 3 false
    ⟨100, HassState.on, none, none⟩ ⟨none, none, none⟩ rfl rfl
  exact ⟨h.1, h.2.1⟩

/-! Claim C6. -/

/-- C6 counterexample: with the capability set holding exactly the two
white channels, bitmask 3, and extra payload bytes FF00, decode reports
the warm constant as temperature but the final capability check forces the
rgb to none, not to the RGB equivalent of that temperature as the claim
and its scenario promise. -/
theorem c6_counterexample :
    updateColorProperties (fun q => q) (fun _ => [255, 255, 255]) 154 500 3
        ("#000000FF00").data none =
      some (none, some (TEMP_WARM_HASS 154 500)) ∧
    (none : Option (List ℤ)) ≠ some (ct_to_rgb (fun q => q)
      (fun _ => [255, 255, 255]) (TEMP_WARM_HASS 154 500)) := by
  exact ⟨rfl, fun h => Option.noConfusion h⟩

/-- C6 amended: for a payload whose capabilities include both WARM_WHITE
and COLD_WHITE together with at least one of RED, GREEN, BLUE, decode
follows the claimed precedence: positive warm byte gives the warm constant
and its RGB equivalent, else positive cold byte gives the cold constant
and its RGB equivalent, else the midpoint constant with the parsed RGB
bytes unchanged; when every RGB capability bit is absent the reported rgb
is instead forced to none. -/
theorem c6_both_whites_precedence (m2k : ℚ → ℚ) (k2rgb : ℚ → List ℚ)
    (cmin cmax : ℚ) (channels r g b ww cw : ℕ) (prevCt : Option ℚ)
    (h1 : channels &&& COLOR_CHANNEL_WARM_WHITE ≠ 0)
    (h2 : channels &&& COLOR_CHANNEL_COLD_WHITE ≠ 0)
    (h3 : ¬ (channels &&& COLOR_CHANNEL_RED = 0 ∧
      channels &&& COLOR_CHANNEL_GREEN = 0 ∧
      channels &&& COLOR_CHANNEL_BLUE = 0))
    (hr : r < 256) (hg : g < 256) (hb : b < 256) (hw : ww < 256)
    (hc : cw < 256) :
    (0 < ww → updateColorProperties m2k k2rgb cmin cmax channels
        (mkColorData r g b ww cw) prevCt =
      some (some (ct_to_rgb m2k k2rgb (TEMP_WARM_HASS cmin cmax)),
        some (TEMP_WARM_HASS cmin cmax))) ∧
    (ww = 0 → 0 < cw → updateColorProperties m2k k2rgb cmin cmax channels
        (mkColorData r g b ww cw) prevCt =
      some (some (ct_to_rgb m2k k2rgb (TEMP_COLD_HASS cmin cmax)),
        some (TEMP_COLD_HASS cmin cmax))) ∧
    (ww = 0 → cw = 0 → updateColorProperties m2k k2rgb cmin cmax channels
        (mkColorData r g b ww cw) prevCt =
      some (some [(r : ℤ), (g : ℤ), (b : ℤ)],
        some (TEMP_MID_HASS cmin cmax))) := by
  have hp := parsePayload_mkColorData channels r g b ww cw h1 h2 hr hg hb
    hw hc
  refine ⟨fun hww => ?_, fun hww hcw => ?_, fun hww hcw => ?_⟩
  · simp only [updateColorProperties, hp]
    simp [decodeColor, h1, h2, h3, hww]
  · simp only [updateColorProperties, hp]
    simp [decodeColor, h1, h2, h3, hww, hcw]
  · simp only [updateColorProperties, hp]
    simp [decodeColor, h1, h2, h3, hww, hcw]

/-- C6 witness: a device with warm white, cold white and red capability,
bitmask 7, and a saturated warm byte decodes to the warm constant and its
RGB equivalent. -/
theorem c6_both_whites_precedence_witness :
    updateColorProperties (fun q => q) (fun _ => [255, 255, 255]) 154 500 7
        (mkColorData 0 0 0 255 0) none =
      some (some (ct_to_rgb (fun q => q) (fun _ => [255, 255, 255])
        (TEMP_WARM_HASS 154 500)), some (TEMP_WARM_HASS 154 500)) := by
  exact (c6_both_whites_precedence (fun q => q) (fun _ => [255, 255, 255])
    154 500 7 0 0 0 255 0 none (by decide) (by decide) (by decide)
    (by decide) (by decide) (by decide) (by decide) (by decide)).1
    (by decide)

/-! Claim C7. -/

/-- C7: decode returns none for a channel group the device lacks. When the
capability bitmask holds neither white bit the temperature branches do not
run, so starting from the constructor state, whose cached temperature is
none, the reported temperature is none; and when the bitmask holds none of
the three RGB bits the reported rgb is forced to none whatever the parsed
payload bytes were. -/
theorem c7_missing_channels_decode_none (m2k : ℚ → ℚ) (k2rgb : ℚ → List ℚ)
    (cmin cmax : ℚ) (channels : ℕ) (data : List Char) (prevCt : Option ℚ)
    (rgbOut : Option (List ℤ)) (ctOut : Option ℚ)
    (hres : updateColorProperties m2k k2rgb cmin cmax channels data prevCt =
      some (rgbOut, ctOut)) :
    ((channels &&& COLOR_CHANNEL_WARM_WHITE = 0 ∧
        channels &&& COLOR_CHANNEL_COLD_WHITE = 0 ∧ prevCt = none) →
      ctOut = none) ∧
    ((channels &&& COLOR_CHANNEL_RED = 0 ∧
        channels &&& COLOR_CHANNEL_GREEN = 0 ∧
        channels &&& COLOR_CHANNEL_BLUE = 0) →
      rgbOut = none) := by
  rcases hp : parsePayload channels data with _ | ⟨r, g, b, ww, cw⟩
  · simp [updateColorProperties, hp] at hres
  · simp only [updateColorProperties, hp, Option.some.injEq] at hres
    constructor
    · rintro ⟨hw1, hw2, hprev⟩
      have h := decodeColor_ct_no_white m2k k2rgb cmin cmax channels r g b
        ww cw prevCt hw1 hw2
      rw [hres] at h
      simpa [hprev] using h
    · intro h3
      have h := decodeColor_rgb_no_rgb m2k k2rgb cmin cmax channels r g b
        ww cw prevCt h3
      rw [hres] at h
      exact h

/-- C7 witness: a device with the empty capability bitmask decodes a plain
RGB payload to no rgb and no temperature. -/
theorem c7_missing_channels_decode_none_witness :
    updateColorProperties (fun q => q) (fun _ => []) 154 500 0
        ("#123456").data none = some (none, none) ∧
    (none : Option ℚ) = none ∧ (none : Option (List ℤ)) = none := by
  have hres : updateColorProperties (fun q => q) (fun _ => []) 154 500 0
      ("#123456").data none = some (none, none) := rfl
  have h := c7_missing_channels_decode_none (fun q => q) (fun _ => [])
    154 500 0 (("#123456").data) none none none hres
  exact ⟨hres, h.1 ⟨rfl, rfl, rfl⟩, h.2 ⟨rfl, rfl, rfl⟩⟩

/-! Claims C8 and C9: the debounced refresher. -/

/-- Processing a burst while a timer is pending: when every further
notification arrives strictly less than two seconds after the previous
one, each arrival only replaces the pending timer with one two seconds
after itself; no timer fires and no refresh is issued during the burst. -/
theorem run_notifications_pending (selfId : ℕ) (evs : List (ℚ × ℕ)) :
    ∀ (s : Refresher) (tprev : ℚ), s.refreshing = false →
      s.timer = some (tprev + 2) →
      List.Chain' (fun a b => a < b ∧ b - a < 2)
        (tprev :: evs.map Prod.fst) →
      run_notifications selfId s evs =
        { s with timer := some ((evs.map Prod.fst).getLastD tprev + 2) } := by
  induction evs with
  | nil =>
    intro s tprev h1 h2 _
    obtain ⟨r, tm, bb, hh, rl⟩ := s
    simp only [run_notifications, List.map_nil, List.getLastD_nil]
    simp_all
  | cons ev rest ih =>
    obtain ⟨t, v⟩ := ev
    intro s tprev h1 h2 hch
    simp only [List.map_cons, List.chain'_cons] at hch
    obtain ⟨⟨hlt, hgap⟩, hch'⟩ := hch
    have hnd : ¬ (tprev + 2 ≤ t) := by push_neg; linarith
    have hfd : fire_due s t = s := by
      simp [fire_due, h2, hnd]
    have hvc : value_changed selfId (fire_due s t) selfId t v =
        { s with timer := some (t + 2) } := by
      rw [hfd]
      simp [value_changed, h1]
    have hrec := ih { s with timer := some (t + 2) } t (by simp [h1])
      (by simp) hch'
    simp only [run_notifications, hvc, hrec]
    obtain ⟨r, tm, bb, hh, rl⟩ := s
    simp only [List.map_cons, List.getLastD_cons]

/-- C8: a burst of matching notifications, each strictly less than two
seconds after the previous one, starting with no refresh in flight and no
pending timer, issues exactly one refresh request, scheduled two seconds
after the last notification of the burst. -/
theorem c8_debounce_single_refresh (selfId : ℕ) (b0 : ℚ) (h0 : HassState)
    (t0 : ℚ) (v0 : ℕ) (evs : List (ℚ × ℕ))
    (hch : List.Chain' (fun a b => a < b ∧ b - a < 2)
      (t0 :: evs.map Prod.fst)) :
    (timer_fire (run_notifications selfId ⟨false, none, b0, h0, []⟩
        ((t0, v0) :: evs))).refreshes =
      [(evs.map Prod.fst).getLastD t0 + 2] := by
  have h1 : value_changed selfId
      (fire_due ⟨false, none, b0, h0, []⟩ t0) selfId t0 v0 =
      ⟨false, some (t0 + 2), b0, h0, []⟩ := by
    simp [fire_due, value_changed]
  have hrec := run_notifications_pending selfId evs
    ⟨false, some (t0 + 2), b0, h0, []⟩ t0 rfl rfl hch
  simp only [run_notifications, h1, hrec]
  simp [timer_fire]

/-- C8 witness: notifications at times 0, one half and 1, all closer than
two seconds, yield exactly one refresh request at time 3. -/
theorem c8_debounce_single_refresh_witness :
    (timer_fire (run_notifications 1 ⟨false, none, 255, HassState.off, []⟩
        [(0, 3), (1/2, 5), (1, 7)])).refreshes = [3] := by
  have h := c8_debounce_single_refresh 1 255 HassState.off 0 3
    [(1/2, 5), (1, 7)] (by norm_num [List.chain'_cons])
  rw [h]
  norm_num [List.getLastD_cons]

/-- C9: a matching notification arriving while a refresh is in flight
clears the in flight flag, updates the cached fields directly from the
value, leaves the timer untouched and issues no refresh request. -/
theorem c9_refreshing_notification_idle (selfId : ℕ) (s : Refresher)
    (t : ℚ) (raw : ℕ) (h : s.refreshing = true) :
    value_changed selfId s selfId t raw =
      { s with refreshing := false
               brightness := (brightness_state raw).1
               hstate := (brightness_state raw).2 } ∧
    (value_changed selfId s selfId t raw).timer = s.timer ∧
    (value_changed selfId s selfId t raw).refreshes = s.refreshes := by
  refine ⟨?_, ?_, ?_⟩ <;> simp [value_changed, h]

/-- C9 witness: a concrete in flight state consumes the notification as
the refresh result: flag cleared, brightness read back, timer still dead
and no refresh issued. -/
theorem c9_refreshing_notification_idle_witness :
    value_changed 1 ⟨true, none, 255, HassState.off, []⟩ 1 0 50 =
      ⟨false, none, (brightness_state 50).1, (brightness_state 50).2, []⟩ := by
  exact (c9_refreshing_notification_idle 1
    ⟨true, none, 255, HassState.off, []⟩ 0 50 rfl).1

/-! Claim C10. -/

/-- C10: brightness_state reports a raw value of zero as off with the
fixed brightness 255, and any positive raw value as on with the exact
unrounded brightness raw / 99 * 255; the exposed brightness is never
zero. -/
theorem c10_brightness_never_zero :
    brightness_state 0 = (255, HassState.off) ∧
    (∀ v : ℕ, 0 < v →
      brightness_state v = ((v : ℚ) / 99 * 255, HassState.on) ∧
      (brightness_state v).1 ≠ 0) := by
  refine ⟨rfl, fun v hv => ?_⟩
  have hbs : brightness_state v = ((v : ℚ) / 99 * 255, HassState.on) := by
    simp [brightness_state, hv]
  refine ⟨hbs, ?_⟩
  rw [hbs]
  have hv' : (0 : ℚ) < (v : ℚ) := by exact_mod_cast hv
  have hpos : (0 : ℚ) < (v : ℚ) / 99 * 255 :=
    mul_pos (div_pos hv' (by norm_num)) (by norm_num)
  exact ne_of_gt hpos

/-- C10 witness: the zero raw value maps to off with brightness 255, and
the raw value 3 maps to on with the exact fraction. -/
theorem c10_brightness_never_zero_witness :
    brightness_state 0 = (255, HassState.off) ∧
    brightness_state 3 = ((3 : ℚ) / 99 * 255, HassState.on) := by
  refine ⟨c10_brightness_never_zero.1, ?_⟩
  have h := (c10_brightness_never_zero.2 3 (by norm_num)).1
  simpa using h

end ZwaveLight
